import Mathlib

/-!
Shallow embedding of the Universal Agent Gateway repository: the MCP JSON-RPC
dispatcher (`app/routes/api.mcp.$shopId.ts`), the agent-logic client and
recorder utilities (`app/utils/agent-logic.ts`), and the UCP discovery loader
(`app/routes/api.proxy.tsx`).

JavaScript runtime values flowing through the untyped (`any`-cast) parts of the
code are modelled by an explicit `Json` inductive; `Option Json` stands for a
possibly-`undefined` value (`none` = `undefined`). Database effects are explicit
state passing over a `DB` record; the upstream Shopify GraphQL endpoint is an
oracle (`Upstream`) mapping each request to its outcome, and every issued
upstream request is recorded in a trace so that call counts are observable.
Thrown JavaScript `Error`s are modelled by the `AgentError` inductive together
with `AgentError.message`, rendering exactly the source's message strings.
-/

/-- A JSON value as produced by `JSON.parse` / consumed by `JSON.stringify`.
Numbers are modelled as integers (every numeric literal the dispatcher
manipulates is integral). Object member order is significant, mirroring
JavaScript insertion order. -/
inductive Json where
  | null
  | bool (b : Bool)
  | num (n : Int)
  | str (s : String)
  | arr (elems : List Json)
  | obj (members : List (String × Json))
deriving Repr

/-- Last-wins association lookup, matching `JSON.parse` duplicate-key semantics
(objects built by the code itself have unique keys, where first = last). -/
def jlookup (kvs : List (String × Json)) (k : String) : Option Json :=
  kvs.foldl (fun acc p => if p.1 = k then some p.2 else acc) none

/-- JavaScript property access `v[k]`: `none` models `undefined`. Only objects
have (string-keyed) own properties among the JSON values. -/
def jget (v : Json) (k : String) : Option Json :=
  match v with
  | .obj kvs => jlookup kvs k
  | _ => none

/-- JavaScript falsiness of a JSON value: `null`, `false`, `0` and `""` are
falsy; arrays and objects (even empty) are truthy. -/
def jsFalsy : Json → Bool
  | .null => true
  | .bool b => !b
  | .num n => n == 0
  | .str s => s == ""
  | .arr _ => false
  | .obj _ => false

/-- Falsiness of a possibly-`undefined` value (`undefined` is falsy). -/
def jsFalsyOpt : Option Json → Bool
  | none => true
  | some v => jsFalsy v

/-- The JavaScript `||` default idiom `v || d` on a possibly-`undefined` `v`. -/
def jsOr (v : Option Json) (d : Json) : Json :=
  match v with
  | none => d
  | some x => if jsFalsy x then d else x

/-- JavaScript numeric indexing `v[i]`: array element, single-character string,
or an object's numeric-string key; `none` models `undefined`. -/
def jindex (v : Json) (i : Nat) : Option Json :=
  match v with
  | .arr xs => xs[i]?
  | .str s => (s.data[i]?).map (fun c => .str (String.singleton c))
  | .obj kvs => jlookup kvs (toString i)
  | _ => none

mutual
/-- JavaScript string coercion of a value, as in a template literal
(`String(v)`): arrays join their members with commas, objects render as
"[object Object]". -/
def jsDisplay : Json → String
  | .null => "null"
  | .bool b => cond b "true" "false"
  | .num n => toString n
  | .str s => s
  | .arr xs => jsDisplayElems xs
  | .obj _ => "[object Object]"
termination_by structural v => v
/-- Array elements under string coercion, comma-joined; a `null` element
renders as the empty string inside an array. -/
def jsDisplayElems : List Json → String
  | [] => ""
  | [.null] => ""
  | [x] => jsDisplay x
  | .null :: xs => "," ++ jsDisplayElems xs
  | x :: xs => jsDisplay x ++ "," ++ jsDisplayElems xs
termination_by structural l => l
end

/-- Template-literal coercion of a possibly-`undefined` value. -/
def jsDisplayOpt : Option Json → String
  | none => "undefined"
  | some v => jsDisplay v

/-- `JSON.stringify` escaping of one string character (quote, backslash and the
common control characters; other characters pass through verbatim). -/
def jsonEscapeChar (c : Char) : String :=
  if c = '"' then "\\\""
  else if c = '\\' then "\\\\"
  else if c = (Char.ofNat 10) then "\\n"
  else if c = (Char.ofNat 13) then "\\r"
  else if c = (Char.ofNat 9) then "\\t"
  else String.singleton c

def jsonEscape (s : String) : String :=
  String.join (s.data.map jsonEscapeChar)

mutual
/-- `JSON.stringify` of a JSON value. -/
def stringifyJson : Json → String
  | .null => "null"
  | .bool b => cond b "true" "false"
  | .num n => toString n
  | .str s => "\"" ++ jsonEscape s ++ "\""
  | .arr xs => "[" ++ stringifyArr xs ++ "]"
  | .obj kvs => "\x7b" ++ stringifyObj kvs ++ "\x7d"
termination_by structural v => v
def stringifyArr : List Json → String
  | [] => ""
  | [x] => stringifyJson x
  | x :: xs => stringifyJson x ++ "," ++ stringifyArr xs
termination_by structural l => l
def stringifyObj : List (String × Json) → String
  | [] => ""
  | [p] => "\"" ++ jsonEscape p.1 ++ "\":" ++ stringifyJson p.2
  | p :: ps => "\"" ++ jsonEscape p.1 ++ "\":" ++ stringifyJson p.2 ++ "," ++ stringifyObj ps
termination_by structural l => l
end

/-! ## Domain data (agent-logic.ts) -/

/-- A money value from the GraphQL API (`amount` is a decimal string). -/
structure Money where
  amount : String
  currencyCode : String
deriving Repr, DecidableEq

structure PriceRange where
  minVariantPrice : Money
  maxVariantPrice : Money
deriving Repr, DecidableEq

/-- A product variant, as selected by the GraphQL queries and as carried in
`ProductSearchResult` (the mapping between the two is field-identical). -/
structure Variant where
  id : String
  title : String
  price : String
  availableForSale : Bool
  sku : Option String
deriving Repr, DecidableEq

structure FeaturedImage where
  url : String
  altText : Option String
deriving Repr, DecidableEq

/-- `variants(first: n) { nodes { ... } }` connection wrapper of the raw
GraphQL product node. -/
structure VariantConnection where
  nodes : List Variant
deriving Repr, DecidableEq

/-- A raw product node as returned by the GraphQL queries. -/
structure RawProduct where
  id : String
  title : String
  description : String
  handle : String
  featuredImage : Option FeaturedImage
  priceRange : PriceRange
  variants : VariantConnection
deriving Repr, DecidableEq

/-- The normalized product view (`ProductSearchResult` in agent-logic.ts). -/
structure ProductSearchResult where
  id : String
  title : String
  description : String
  handle : String
  featuredImage : Option FeaturedImage
  priceRange : PriceRange
  variants : List Variant
deriving Repr, DecidableEq

/-- `CheckoutResult` in agent-logic.ts. -/
structure CheckoutResult where
  checkoutUrl : String
  checkoutId : String
  totalPrice : String
  currencyCode : String
deriving Repr, DecidableEq

/-- `MerchantContext` in agent-logic.ts. -/
structure MerchantContext where
  shop : String
  accessToken : String
  brandVoice : String
  returnPolicy : Option String
  shippingInfo : Option String
  minFreeShipping : Int
deriving Repr, DecidableEq

/-- A `userErrors` entry of the `cartCreate` mutation (`code`/`field` are
nullable in the schema). -/
structure UserError where
  code : Option String
  field : Option (List String)
  message : String
deriving Repr, DecidableEq

def optStrJson : Option String → Json
  | none => .null
  | some s => .str s

def UserError.toJson (e : UserError) : Json :=
  .obj [("code", optStrJson e.code),
        ("field", match e.field with
                  | none => .null
                  | some fs => .arr (fs.map Json.str)),
        ("message", .str e.message)]

/-- One line of the `CartInput.lines` built by `createCheckoutLink`
(`merchandiseId`/`quantity` are whatever runtime values the untyped caller
supplied, hence `Json`). -/
structure CartLine where
  merchandiseId : Json
  quantity : Json
deriving Repr

/-- The intermediate `lineItems` array of `createCheckoutLink`. -/
structure LineItem where
  variantId : Json
  quantity : Json
deriving Repr

structure CartAttribute where
  key : String
  value : String
deriving Repr, DecidableEq

/-- The `input` object sent to the `cartCreate` mutation. -/
structure CartInput where
  lines : List CartLine
  attributes : List CartAttribute
  note : String
deriving Repr

structure CartCost where
  totalAmount : Money
deriving Repr, DecidableEq

structure Cart where
  id : String
  checkoutUrl : String
  cost : CartCost
deriving Repr, DecidableEq

/-- `data.data.cartCreate` of the mutation response (`cart` is null when the
mutation fails with user errors). -/
structure CartCreatePayload where
  cart : Option Cart
  userErrors : List UserError
deriving Repr, DecidableEq

/-! ## Errors (thrown JavaScript `Error`s, with their exact messages) -/

inductive AgentError where
  /-- `Shopify API error: ${status} ${statusText}` on a non-ok HTTP response. -/
  | shopifyApi (status : Nat) (statusText : String)
  /-- `GraphQL errors: ${JSON.stringify(data.errors)}`. -/
  | graphqlErrors (errs : Json)
  /-- `Cart creation failed: ${JSON.stringify(errors)}` on populated `userErrors`. -/
  | cartCreationFailed (userErrors : List UserError)
  /-- `Shop not found` from `getMerchantSession`. -/
  | shopNotFound
  /-- `AI Agent is disabled for this store` from `getMerchantSession`. -/
  | agentDisabled
  /-- `Unknown tool: ${toolName}` from `handleToolCall`'s default case. -/
  | unknownTool (name : Option Json)
  /-- A runtime `TypeError` (destructuring `undefined`/`null`, calling `.map`
  on a non-array, ...). -/
  | jsTypeError (msg : String)
  /-- A Prisma validation error (a non-string runtime value written to a
  string column). -/
  | persistenceFailure (msg : String)
  /-- `request.json()` rejected: the body was not valid JSON. -/
  | bodyParseFailure (msg : String)
deriving Repr

def AgentError.message : AgentError → String
  | .shopifyApi status statusText => "Shopify API error: " ++ toString status ++ " " ++ statusText
  | .graphqlErrors errs => "GraphQL errors: " ++ stringifyJson errs
  | .cartCreationFailed userErrors =>
      "Cart creation failed: " ++ stringifyJson (.arr (userErrors.map UserError.toJson))
  | .shopNotFound => "Shop not found"
  | .agentDisabled => "AI Agent is disabled for this store"
  | .unknownTool name => "Unknown tool: " ++ jsDisplayOpt name
  | .jsTypeError msg => msg
  | .persistenceFailure msg => msg
  | .bodyParseFailure msg => msg

/-! ## Upstream GraphQL oracle -/

/-- Outcome of one `fetch` of the Shopify GraphQL endpoint: a non-ok HTTP
status, a populated top-level `errors` list, or a decoded `data` payload. -/
inductive GqlOutcome (α : Type) where
  | httpFail (status : Nat) (statusText : String)
  | gqlErrors (errs : Json)
  | ok (payload : α)
deriving Repr

/-- `executeShopifyGraphQL`: throws on `!response.ok`, then on `data.errors`,
otherwise returns the data. The outcome of the single `fetch` it performs is
supplied by the oracle. -/
def executeShopifyGraphQL {α : Type} (outcome : GqlOutcome α) : Except AgentError α :=
  match outcome with
  | .httpFail status statusText => .error (.shopifyApi status statusText)
  | .gqlErrors errs => .error (.graphqlErrors errs)
  | .ok data => .ok data

/-- One upstream GraphQL request actually issued, with the variables it
carried (an `Option Json` variable is `undefined` when `none`). -/
inductive UpstreamCall where
  | search (shop accessToken : String) (query : Option Json) (first : Json)
  | byHandle (shop accessToken : String) (handle : Option Json)
  | cartCreate (shop accessToken : String) (input : CartInput)
deriving Repr

/-- The upstream platform, as an oracle from each request to its outcome. -/
structure Upstream where
  search : String → String → Option Json → Json → GqlOutcome (List RawProduct)
  byHandle : String → String → Option Json → GqlOutcome (Option RawProduct)
  cartCreate : String → String → CartInput → GqlOutcome CartCreatePayload

/-- The field-by-field projection of a raw variant node performed by
`searchProducts`/`getProductByHandle`. -/
def mapVariant (v : Variant) : Variant :=
  { id := v.id, title := v.title, price := v.price,
    availableForSale := v.availableForSale, sku := v.sku }

/-- The product-node mapping of `searchProducts`/`getProductByHandle`. -/
def mapProduct (p : RawProduct) : ProductSearchResult :=
  { id := p.id, title := p.title, description := p.description,
    handle := p.handle, featuredImage := p.featuredImage,
    priceRange := p.priceRange, variants := p.variants.nodes.map mapVariant }

/-- `searchProducts(shop, accessToken, query, limit = 10)`. `query` and
`limit` are the runtime values flowing through the `as`-casts of the caller;
the `= 10` default parameter applies when `limit` is `undefined`. Returns the
result together with the upstream requests issued. -/
def searchProducts (u : Upstream) (shop accessToken : String)
    (query : Option Json) (limit : Option Json) :
    Except AgentError (List ProductSearchResult) × List UpstreamCall :=
  let first := limit.getD (.num 10)
  (match executeShopifyGraphQL (u.search shop accessToken query first) with
   | .error e => .error e
   | .ok nodes => .ok (nodes.map mapProduct),
   [.search shop accessToken query first])

/-- `getProductByHandle(shop, accessToken, handle)`: `none` (JS `null`) when
the handle does not resolve. -/
def getProductByHandle (u : Upstream) (shop accessToken : String)
    (handle : Option Json) :
    Except AgentError (Option ProductSearchResult) × List UpstreamCall :=
  (match executeShopifyGraphQL (u.byHandle shop accessToken handle) with
   | .error e => .error e
   | .ok none => .ok none
   | .ok (some p) => .ok (some (mapProduct p)),
   [.byHandle shop accessToken handle])

/-- The `lineItems` array of `createCheckoutLink`:
`variantIds.map((variantId, index) => ({variantId, quantity: quantities[index] || 1}))`. -/
def lineItemsOf (vids : List Json) (quantities : Json) : List LineItem :=
  vids.enum.map (fun p => { variantId := p.2, quantity := jsOr (jindex quantities p.1) (.num 1) })

/-- The `input` object of the `cartCreate` mutation, including the attribution
pair attached to every cart created through the tool surface. -/
def cartInputOf (vids : List Json) (quantities : Json) (interactionId : String) : CartInput :=
  { lines := (lineItemsOf vids quantities).map
      (fun item => { merchandiseId := item.variantId, quantity := item.quantity }),
    attributes := [{ key := "_source", value := "universal_agent_gateway" },
                   { key := "_interaction_id", value := interactionId }],
    note := "Generated by AI Agent via Universal Agent Gateway" }

/-- `createCheckoutLink(shop, accessToken, variantIds, quantities, interactionId)`.
`variantIds`/`quantities` are the runtime values behind the caller's casts
(`variantIds.map` throws a `TypeError` when `variantIds` is not an array).
After the mutation, a populated `userErrors` list is thrown; otherwise the
cart's fields are projected into a `CheckoutResult`. -/
def createCheckoutLink (u : Upstream) (shop accessToken : String)
    (variantIds : Option Json) (quantities : Json) (interactionId : String) :
    Except AgentError CheckoutResult × List UpstreamCall :=
  match variantIds with
  | some (.arr vids) =>
    let input := cartInputOf vids quantities interactionId
    (match executeShopifyGraphQL (u.cartCreate shop accessToken input) with
     | .error e => .error e
     | .ok payload =>
       if payload.userErrors.isEmpty then
         match payload.cart with
         | some cart =>
             .ok { checkoutUrl := cart.checkoutUrl, checkoutId := cart.id,
                   totalPrice := cart.cost.totalAmount.amount,
                   currencyCode := cart.cost.totalAmount.currencyCode }
         | none => .error (.jsTypeError "Cannot read properties of null (reading checkoutUrl)")
       else .error (.cartCreationFailed payload.userErrors),
     [.cartCreate shop accessToken input])
  | _ => (.error (.jsTypeError "variantIds.map is not a function"), [])

/-! ## Persistence (Prisma models and the Interaction Recorder) -/

/-- One `AgentInteraction` row. The `converted`/`orderId`/`orderValue` columns
are written only by the webhook handler, which is outside the dispatcher
surface modelled here, so they are omitted. `potentialValue` stores the
decimal string whose `parseFloat` the code persists; the dispatcher never
reads it back numerically. -/
structure AgentInteraction where
  id : String
  merchantId : String
  userIntent : String
  inputQuery : Option String
  checkoutId : Option String
  checkoutUrl : Option String
  potentialValue : Option String
  userAgent : Option String
deriving Repr, DecidableEq

/-- One `MissedOpportunity` row, unique on (shop, searchTerm). The `lastSeen`
wall-clock timestamp column is omitted (nothing modelled here reads it). -/
structure MissedOpportunity where
  shop : String
  searchTerm : String
  count : Nat
deriving Repr, DecidableEq

/-- The database state touched by the dispatcher. `nextId` feeds the opaque
fresh row ids Prisma mints on create. -/
structure DB where
  nextId : Nat
  interactions : List AgentInteraction
  missed : List MissedOpportunity
deriving Repr, DecidableEq

/-- The opaque database-generated id of the `nextId`-th created row. -/
def mintId (n : Nat) : String := "cuid-" ++ toString n

/-- Writing a runtime value into an optional string column: Prisma accepts a
string or `null`/`undefined` and rejects anything else with a validation
error. -/
def decodeOptStr : Option Json → Except AgentError (Option String)
  | none => .ok none
  | some .null => .ok none
  | some (.str s) => .ok (some s)
  | some _ => .error (.persistenceFailure "Invalid value supplied for a string column")

/-- `logInteraction`: creates an `AgentInteraction` row and returns the minted
id. `inputQuery` is the runtime value the untyped caller passed; the remaining
optional parameters are genuine strings at every call site. -/
def logInteraction (db : DB) (merchantId userIntent : String) (inputQuery : Option Json)
    (checkoutId checkoutUrl potentialValue userAgent : Option String) :
    Except AgentError (String × DB) :=
  match decodeOptStr inputQuery with
  | .error e => .error e
  | .ok q =>
    let id := mintId db.nextId
    .ok (id, { db with
      nextId := db.nextId + 1,
      interactions := db.interactions ++
        [{ id := id, merchantId := merchantId, userIntent := userIntent,
           inputQuery := q, checkoutId := checkoutId, checkoutUrl := checkoutUrl,
           potentialValue := potentialValue, userAgent := userAgent }] })

/-- The increment-or-create upsert on the `(shop, searchTerm)` unique key. -/
def upsertMissed (db : DB) (shop searchTerm : String) : DB :=
  if db.missed.any (fun m => m.shop == shop && m.searchTerm == searchTerm) then
    { db with missed := db.missed.map (fun m =>
        if m.shop == shop && m.searchTerm == searchTerm then { m with count := m.count + 1 } else m) }
  else
    { db with missed := db.missed ++ [{ shop := shop, searchTerm := searchTerm, count := 1 }] }

/-- `trackMissedOpportunity(shop, searchTerm)`: upserts the counter row. The
search term is the runtime value of `args.query` (a non-string would be
rejected by Prisma's validation of the required string column). -/
def trackMissedOpportunity (db : DB) (shop : String) (searchTerm : Option Json) :
    Except AgentError DB :=
  match searchTerm with
  | some (.str t) => .ok (upsertMissed db shop t)
  | _ => .error (.persistenceFailure "Invalid value supplied for MissedOpportunity.searchTerm")

/-- `prisma.agentInteraction.update` of the create_checkout handler, filling
the checkout columns of the row with the given id (which the handler has just
created, so it exists). -/
def updateInteraction (db : DB) (id : String) (checkout : CheckoutResult) : DB :=
  { db with interactions := db.interactions.map (fun rec =>
      if rec.id == id then
        { rec with checkoutId := some checkout.checkoutId,
                   checkoutUrl := some checkout.checkoutUrl,
                   potentialValue := some checkout.totalPrice }
      else rec) }

/-- The count stored in the first row matching `(shop, searchTerm)`, 0 when no
row exists (the upsert key is unique, so at most one row ever matches). -/
def missedCountL : List MissedOpportunity → String → String → Nat
  | [], _, _ => 0
  | m :: rest, shop, searchTerm =>
    if m.shop == shop && m.searchTerm == searchTerm then m.count
    else missedCountL rest shop searchTerm

def missedCount (db : DB) (shop searchTerm : String) : Nat :=
  missedCountL db.missed shop searchTerm

/-! ## Prompt building and product formatting -/

/-- JavaScript truthiness of an optional string (`undefined`, `null` and `""`
are falsy). -/
def strTruthy : Option String → Bool
  | none => false
  | some s => s != ""

/-- `buildSystemPrompt(context)`. -/
def buildSystemPrompt (context : MerchantContext) : String :=
  let parts :=
    ["You are a helpful shopping assistant for " ++ context.shop ++ ".",
     "Your tone should be " ++ context.brandVoice ++ "."]
    ++ (match context.returnPolicy with
        | some rp => if rp == "" then [] else ["Return Policy: " ++ rp]
        | none => [])
    ++ (match context.shippingInfo with
        | some si => if si == "" then [] else ["Shipping Information: " ++ si]
        | none => [])
    ++ (if context.minFreeShipping > 0 then
          ["Free shipping is available on orders over $" ++ toString context.minFreeShipping ++ "."]
        else [])
    ++ ["Always be helpful and guide customers to find what they\x27re looking for.",
        "When suggesting products, include prices and availability.",
        "If you can\x27t find what the customer wants, suggest alternatives."]
  String.intercalate "\n\n" parts

/-- One numbered entry of `formatProductsForAI` (the `substring(0, 150)`
description truncation is by character). -/
def formatProductEntry (i : Nat) (p : ProductSearchResult) : String :=
  let minPrice := p.priceRange.minVariantPrice
  let availableVariants := p.variants.filter (fun v => v.availableForSale)
  toString (i + 1) ++ ". **" ++ p.title ++ "**\n" ++
  "   - Price: " ++ minPrice.currencyCode ++ " " ++ minPrice.amount ++ "\n" ++
  "   - " ++ toString availableVariants.length ++ " variant(s) available\n" ++
  "   - Handle: " ++ p.handle ++ "\n" ++
  "   " ++ (if p.description == "" then ""
            else "- Description: " ++ p.description.take 150 ++ "...")

/-- `formatProductsForAI(products)`. -/
def formatProductsForAI (products : List ProductSearchResult) : String :=
  if products.isEmpty then "No products found matching your search."
  else String.intercalate "\n\n" (products.enum.map (fun p => formatProductEntry p.1 p.2))

/-! ## Serialization of the structured `data` payloads -/

def Money.toJson (m : Money) : Json :=
  .obj [("amount", .str m.amount), ("currencyCode", .str m.currencyCode)]

def PriceRange.toJson (pr : PriceRange) : Json :=
  .obj [("minVariantPrice", pr.minVariantPrice.toJson),
        ("maxVariantPrice", pr.maxVariantPrice.toJson)]

def Variant.toJson (v : Variant) : Json :=
  .obj [("id", .str v.id), ("title", .str v.title), ("price", .str v.price),
        ("availableForSale", .bool v.availableForSale), ("sku", optStrJson v.sku)]

def FeaturedImage.toJson (im : FeaturedImage) : Json :=
  .obj [("url", .str im.url), ("altText", optStrJson im.altText)]

def ProductSearchResult.toJson (p : ProductSearchResult) : Json :=
  .obj [("id", .str p.id), ("title", .str p.title),
        ("description", .str p.description), ("handle", .str p.handle),
        ("featuredImage", match p.featuredImage with
                          | none => .null
                          | some im => im.toJson),
        ("priceRange", p.priceRange.toJson),
        ("variants", .arr (p.variants.map Variant.toJson))]

/-- `JSON.stringify({ variantIds, quantities })` as logged by the
create_checkout handler (`variantIds` may be `undefined`, in which case
`JSON.stringify` drops the key). -/
def stringifyVQ (variantIds : Option Json) (quantities : Json) : String :=
  "\x7b" ++ (match variantIds with
             | none => ""
             | some v => "\"variantIds\":" ++ stringifyJson v ++ ",")
  ++ "\"quantities\":" ++ stringifyJson quantities ++ "\x7d"

/-! ## MCP dispatcher (api.mcp.$shopId.ts) -/

/-- The `MerchantProfile` row (`updatedAt` is kept as its ISO rendering, the
only form in which the code serializes it). -/
structure MerchantProfile where
  id : String
  isEnabled : Bool
  brandVoice : String
  returnPolicy : Option String
  shippingInfo : Option String
  minFreeShipping : Int
  updatedAt : Option String
deriving Repr, DecidableEq

/-- The `Session` row with its included profile relation. -/
structure Session where
  shop : String
  accessToken : String
  profile : Option MerchantProfile
deriving Repr, DecidableEq

/-- `getMerchantSession(shopId)`: the `findFirst` result is supplied by the
environment; throws `Shop not found` on no session, `AI Agent is disabled for
this store` when the profile is missing or its enabled flag is off. -/
def getMerchantSession (lookup : Option Session) : Except AgentError Session :=
  match lookup with
  | none => .error .shopNotFound
  | some session =>
    match session.profile with
    | none => .error .agentDisabled
    | some p => if p.isEnabled then .ok session else .error .agentDisabled

/-- The static `TOOLS` registry, serialized. -/
def TOOLS : Json := .arr [
  .obj [("name", .str "search_products"),
        ("description", .str "Search for products in the store catalog. Use this to find products matching a query."),
        ("inputSchema", .obj [
          ("type", .str "object"),
          ("properties", .obj [
            ("query", .obj [("type", .str "string"),
                            ("description", .str "Search query (e.g., \x27red dress\x27, \x27gifts under $50\x27)")]),
            ("limit", .obj [("type", .str "integer"),
                            ("description", .str "Maximum number of results to return"),
                            ("default", .num 10)])]),
          ("required", .arr [.str "query"])])],
  .obj [("name", .str "get_product"),
        ("description", .str "Get detailed information about a specific product by its handle/slug."),
        ("inputSchema", .obj [
          ("type", .str "object"),
          ("properties", .obj [
            ("handle", .obj [("type", .str "string"),
                             ("description", .str "The product handle (URL slug)")])]),
          ("required", .arr [.str "handle"])])],
  .obj [("name", .str "create_checkout"),
        ("description", .str "Create an instant checkout link for one or more products. Returns a URL the customer can use to purchase."),
        ("inputSchema", .obj [
          ("type", .str "object"),
          ("properties", .obj [
            ("variant_ids", .obj [("type", .str "array"),
                                  ("items", .obj [("type", .str "string")]),
                                  ("description", .str "Array of Shopify variant GIDs (e.g., \x27gid://shopify/ProductVariant/12345\x27)")]),
            ("quantities", .obj [("type", .str "array"),
                                 ("items", .obj [("type", .str "integer")]),
                                 ("description", .str "Array of quantities for each variant (defaults to 1 for each)")])]),
          ("required", .arr [.str "variant_ids"])])],
  .obj [("name", .str "get_store_info"),
        ("description", .str "Get information about the store\x27s policies and details."),
        ("inputSchema", .obj [
          ("type", .str "object"),
          ("properties", .obj [
            ("topic", .obj [("type", .str "string"),
                            ("enum", .arr [.str "shipping", .str "returns", .str "brand", .str "all"]),
                            ("description", .str "The topic to get information about")])])])]]

/-- The `id` member of a response envelope: `JSON.stringify` drops the key
when the destructured request id was `undefined`. -/
def idField : Option Json → List (String × Json)
  | none => []
  | some v => [("id", v)]

def envelopeOk (id : Option Json) (result : Json) : Json :=
  .obj ([("jsonrpc", Json.str "2.0")] ++ idField id ++ [("result", result)])

def rpcErrorObj (code : Int) (msg : String) : Json :=
  .obj [("code", .num code), ("message", .str msg)]

def envelopeErr (id : Option Json) (code : Int) (msg : String) : Json :=
  .obj ([("jsonrpc", Json.str "2.0")] ++ idField id ++ [("error", rpcErrorObj code msg)])

/-- The envelope produced by the outermost `catch`: code -32603, `id: null`
unconditionally, message taken from the thrown `Error` (every error reaching
it is an `Error` instance, so the `"Internal error"` fallback is dead). -/
def catchEnvelope (e : AgentError) : Json :=
  .obj [("jsonrpc", .str "2.0"), ("id", .null), ("error", rpcErrorObj (-32603) e.message)]

/-- Strict equality `v === s` of a runtime value against a string literal. -/
def jStrEq (v : Json) (s : String) : Bool :=
  match v with
  | .str t => t == s
  | _ => false

/-- Strict equality `v === s` of a possibly-`undefined` value against a string
literal (this is the comparison a `switch` over string cases performs). -/
def jStrEqOpt (v : Option Json) (s : String) : Bool :=
  match v with
  | some (.str t) => t == s
  | _ => false

/-- `v === null`. -/
def jIsNull : Json → Bool
  | .null => true
  | _ => false

/-- The `search_products` case of `handleToolCall`. -/
def searchTool (u : Upstream) (db : DB) (args : Json) (session : Session)
    (profile : MerchantProfile) : Except AgentError Json × DB × List UpstreamCall :=
  let query := jget args "query"
  let limit := jsOr (jget args "limit") (.num 10)
  match searchProducts u session.shop session.accessToken query (some limit) with
  | (.error e, calls) => (.error e, db, calls)
  | (.ok products, calls) =>
    match (if products.length = 0 then trackMissedOpportunity db session.shop query else .ok db) with
    | .error e => (.error e, db, calls)
    | .ok db1 =>
      match logInteraction db1 profile.id "search_products" query none none none none with
      | .error e => (.error e, db1, calls)
      | .ok (_, db2) =>
        (.ok (.obj [("type", .str "text"),
                    ("text", .str (if products.length > 0 then formatProductsForAI products
                                   else "No products found for \"" ++ jsDisplayOpt query
                                        ++ "\". Try a different search term.")),
                    ("data", .arr (products.map ProductSearchResult.toJson))]),
         db2, calls)

/-- The found-product text of the `get_product` case (the blank-looking second
line carries the template literal's eight spaces of source indentation). -/
def productDetailText (product : ProductSearchResult) (availableVariants : List Variant) : String :=
  "**" ++ product.title ++ "**\n        \n" ++
  (if product.description == "" then "No description available." else product.description) ++
  "\n\nPrice: " ++ product.priceRange.minVariantPrice.currencyCode ++ " " ++
  product.priceRange.minVariantPrice.amount ++ "\n" ++
  toString availableVariants.length ++ " variant(s) in stock\n\nVariants:\n" ++
  String.intercalate "\n"
    (availableVariants.map (fun v => "- " ++ v.title ++ ": " ++ v.price ++ " (ID: " ++ v.id ++ ")"))

/-- The `get_product` case of `handleToolCall`. -/
def getProductTool (u : Upstream) (db : DB) (args : Json) (session : Session)
    (profile : MerchantProfile) : Except AgentError Json × DB × List UpstreamCall :=
  let handle := jget args "handle"
  match getProductByHandle u session.shop session.accessToken handle with
  | (.error e, calls) => (.error e, db, calls)
  | (.ok productOpt, calls) =>
    match logInteraction db profile.id "get_product" handle none none none none with
    | .error e => (.error e, db, calls)
    | .ok (_, db1) =>
      match productOpt with
      | none =>
        (.ok (.obj [("type", .str "text"),
                    ("text", .str ("Product with handle \"" ++ jsDisplayOpt handle ++ "\" not found."))]),
         db1, calls)
      | some product =>
        let availableVariants := product.variants.filter (fun v => v.availableForSale)
        (.ok (.obj [("type", .str "text"),
                    ("text", .str (productDetailText product availableVariants)),
                    ("data", product.toJson)]),
         db1, calls)

/-- `variantIds.map(() => 1)`: a `TypeError` unless `variant_ids` is an array. -/
def fallbackOnes : Option Json → Except AgentError Json
  | some (.arr xs) => .ok (.arr (xs.map (fun _ => Json.num 1)))
  | _ => .error (.jsTypeError "variantIds.map is not a function")

/-- `(args.quantities as number[]) || variantIds.map(() => 1)`. -/
def resolveQuantities (args : Json) : Except AgentError Json :=
  match jget args "quantities" with
  | some q => if jsFalsy q then fallbackOnes (jget args "variant_ids") else .ok q
  | none => fallbackOnes (jget args "variant_ids")

def checkoutText (checkout : CheckoutResult) : String :=
  "✅ Checkout created!\n\n**Total:** " ++ checkout.currencyCode ++ " " ++
  checkout.totalPrice ++ "\n**Checkout URL:** " ++ checkout.checkoutUrl ++
  "\n\nShare this link with the customer to complete their purchase."

/-- The `create_checkout` case of `handleToolCall`: log an interaction first to
mint the attribution id, create the cart, then fill the interaction's checkout
columns (the two-phase write). -/
def createCheckoutTool (u : Upstream) (db : DB) (args : Json) (session : Session)
    (profile : MerchantProfile) : Except AgentError Json × DB × List UpstreamCall :=
  match resolveQuantities args with
  | .error e => (.error e, db, [])
  | .ok quantities =>
    match logInteraction db profile.id "create_checkout"
        (some (.str (stringifyVQ (jget args "variant_ids") quantities))) none none none none with
    | .error e => (.error e, db, [])
    | .ok (interactionId, db1) =>
      match createCheckoutLink u session.shop session.accessToken
          (jget args "variant_ids") quantities interactionId with
      | (.error e, calls) => (.error e, db1, calls)
      | (.ok checkout, calls) =>
        (.ok (.obj [("type", .str "text"),
                    ("text", .str (checkoutText checkout)),
                    ("data", .obj [("checkoutUrl", .str checkout.checkoutUrl),
                                   ("checkoutId", .str checkout.checkoutId),
                                   ("totalPrice", .str checkout.totalPrice),
                                   ("currencyCode", .str checkout.currencyCode)])]),
         updateInteraction db1 interactionId checkout, calls)

/-- The `get_store_info` case of `handleToolCall`. -/
def storeInfoTool (u : Upstream) (db : DB) (args : Json) (session : Session)
    (profile : MerchantProfile) : Except AgentError Json × DB × List UpstreamCall :=
  let topic := jsOr (jget args "topic") (.str "all")
  let context : MerchantContext :=
    { shop := session.shop, accessToken := session.accessToken,
      brandVoice := profile.brandVoice, returnPolicy := profile.returnPolicy,
      shippingInfo := profile.shippingInfo, minFreeShipping := profile.minFreeShipping }
  let infoBrand :=
    if jStrEq topic "all" || jStrEq topic "brand" then
      "**Brand Voice:** " ++ context.brandVoice ++ "\n\n"
    else ""
  let infoShip :=
    if jStrEq topic "all" || jStrEq topic "shipping" then
      (if strTruthy context.shippingInfo then
         "**Shipping:** " ++ context.shippingInfo.getD "" ++ "\n"
       else "**Shipping:** Contact the store for shipping information.\n")
      ++ (if context.minFreeShipping > 0 then
            "Free shipping on orders over $" ++ toString context.minFreeShipping ++ ".\n"
          else "")
      ++ "\n"
    else ""
  let infoReturns :=
    if jStrEq topic "all" || jStrEq topic "returns" then
      (if strTruthy context.returnPolicy then
         "**Returns:** " ++ context.returnPolicy.getD "" ++ "\n"
       else "**Returns:** Contact the store for return policy information.\n")
    else ""
  let info := infoBrand ++ infoShip ++ infoReturns
  match logInteraction db profile.id "get_store_info" (some topic) none none none none with
  | .error e => (.error e, db, [])
  | .ok (_, db1) =>
    (.ok (.obj [("type", .str "text"),
                ("text", .str (if info == "" then "No store information available." else info))]),
     db1, [])

/-- `handleToolCall(toolName, args, session, merchantProfile)`: the switch over
the tool name (a strict-equality match on the runtime value), with the default
case throwing `Unknown tool`. -/
def handleToolCall (u : Upstream) (db : DB) (toolName : Option Json) (args : Json)
    (session : Session) (profile : MerchantProfile) :
    Except AgentError Json × DB × List UpstreamCall :=
  if jStrEqOpt toolName "search_products" then searchTool u db args session profile
  else if jStrEqOpt toolName "get_product" then getProductTool u db args session profile
  else if jStrEqOpt toolName "create_checkout" then createCheckoutTool u db args session profile
  else if jStrEqOpt toolName "get_store_info" then storeInfoTool u db args session profile
  else (.error (.unknownTool toolName), db, [])

def contextUri (shopId : String) : String := "shop://" ++ shopId ++ "/context"

def initializeResult : Json :=
  .obj [("protocolVersion", .str "2024-11-05"),
        ("capabilities", .obj [("tools", .obj [])]),
        ("serverInfo", .obj [("name", .str "Universal Agent Gateway"),
                             ("version", .str "1.0.0")])]

def resourcesListResult (shopId : String) : Json :=
  .obj [("resources", .arr [.obj [
    ("uri", .str (contextUri shopId)),
    ("name", .str "Store Context"),
    ("description", .str "Brand voice and policy information for this store"),
    ("mimeType", .str "text/plain")]])]

/-- The `MerchantContext` assembled by the `resources/read` case (the
`?.`/`||`/`??` chains: a missing profile falls back to a `friendly` voice and
zero threshold; `minFreeShipping || 0` is the identity on an integral value). -/
def readContext (session : Session) : MerchantContext :=
  match session.profile with
  | some p =>
    { shop := session.shop, accessToken := session.accessToken,
      brandVoice := if p.brandVoice == "" then "friendly" else p.brandVoice,
      returnPolicy := p.returnPolicy, shippingInfo := p.shippingInfo,
      minFreeShipping := p.minFreeShipping }
  | none =>
    { shop := session.shop, accessToken := session.accessToken,
      brandVoice := "friendly", returnPolicy := none, shippingInfo := none,
      minFreeShipping := 0 }

/-- The body of the `try` block of `action` after authentication: destructure
the request, switch on `method`, and produce the JSON-RPC response body (all
served with HTTP status 200). Errors propagate to the `catch`. -/
def dispatchInner (u : Upstream) (db : DB) (shopId : String) (body : Json)
    (session : Session) : Except AgentError Json × DB × List UpstreamCall :=
  if jIsNull body then
    (.error (.jsTypeError "Cannot destructure property \x27method\x27 of body as it is null."), db, [])
  else
    let method := jget body "method"
    let id := jget body "id"
    let rpcParams := jget body "params"
    if jStrEqOpt method "initialize" then (.ok (envelopeOk id initializeResult), db, [])
    else if jStrEqOpt method "tools/list" then (.ok (envelopeOk id (.obj [("tools", TOOLS)])), db, [])
    else if jStrEqOpt method "tools/call" then
      match rpcParams with
      | none =>
        (.error (.jsTypeError "Cannot destructure property \x27name\x27 of rpcParams as it is undefined."), db, [])
      | some .null =>
        (.error (.jsTypeError "Cannot destructure property \x27name\x27 of rpcParams as it is null."), db, [])
      | some p =>
        -- the handler receives `session.profile`; `getMerchantSession` has
        -- already guaranteed it is present (a null profile would throw a
        -- `TypeError` at the first `merchantProfile.id` access)
        match session.profile with
        | none => (.error (.jsTypeError "Cannot read properties of null (reading id)"), db, [])
        | some prof =>
          match handleToolCall u db (jget p "name") (jsOr (jget p "arguments") (.obj [])) session prof with
          | (.ok content, db1, calls) =>
            (.ok (envelopeOk id (.obj [("content", .arr [content])])), db1, calls)
          | (.error e, db1, calls) => (.error e, db1, calls)
    else if jStrEqOpt method "resources/list" then
      (.ok (envelopeOk id (resourcesListResult shopId)), db, [])
    else if jStrEqOpt method "resources/read" then
      match rpcParams with
      | none =>
        (.error (.jsTypeError "Cannot read properties of undefined (reading uri)"), db, [])
      | some .null =>
        (.error (.jsTypeError "Cannot read properties of null (reading uri)"), db, [])
      | some p =>
        match jget p "uri" with
        | some (.str uriStr) =>
          if uriStr = contextUri shopId then
            (.ok (envelopeOk id (.obj [("contents", .arr [.obj [
               ("uri", .str uriStr),
               ("mimeType", .str "text/plain"),
               ("text", .str (buildSystemPrompt (readContext session)))]])])),
             db, [])
          else (.ok (envelopeErr id (-32602) "Resource not found"), db, [])
        | _ => (.ok (envelopeErr id (-32602) "Resource not found"), db, [])
    else (.ok (envelopeErr id (-32601) ("Method not found: " ++ jsDisplayOpt method)), db, [])

structure HttpResponse where
  status : Nat
  body : Json
deriving Repr

/-- The `action` entry point. Inputs from the environment: the path parameter,
the result of `request.json()` (`.error` = the body was not valid JSON), and
the session row `findFirst` yields for this shop. Every throw inside the `try`
is rendered by the `catch` as a -32603 envelope with `id: null`. -/
def action (u : Upstream) (db : DB) (shopId : Option String)
    (bodyParse : Except String Json) (sessionLookup : Option Session) :
    HttpResponse × DB × List UpstreamCall :=
  match shopId with
  | none => ({ status := 400, body := .obj [("error", .str "Shop ID is required")] }, db, [])
  | some sid =>
    match bodyParse with
    | .error msg => ({ status := 200, body := catchEnvelope (.bodyParseFailure msg) }, db, [])
    | .ok body =>
      match getMerchantSession sessionLookup with
      | .error e => ({ status := 200, body := catchEnvelope e }, db, [])
      | .ok session =>
        match dispatchInner u db sid body session with
        | (.ok respBody, db1, calls) => ({ status := 200, body := respBody }, db1, calls)
        | (.error e, db1, calls) => ({ status := 200, body := catchEnvelope e }, db1, calls)

/-! ## UCP discovery endpoint (api.proxy.tsx) -/

def hexDigit (n : Nat) : Char :=
  if n < 10 then Char.ofNat (48 + n) else Char.ofNat (55 + n)

/-- The characters `encodeURIComponent` leaves unescaped. -/
def isUriUnreserved (c : Char) : Bool :=
  (c ≥ 'A' && c ≤ 'Z') || (c ≥ 'a' && c ≤ 'z') || (c ≥ '0' && c ≤ '9') ||
  c = '-' || c = '_' || c = '.' || c = '!' || c = '~' || c = '*' ||
  c = (Char.ofNat 39) || c = '(' || c = ')'

def percentEncodeChar (c : Char) : String :=
  String.join (((String.singleton c).toUTF8.toList).map (fun b =>
    "%" ++ String.singleton (hexDigit (b.toNat / 16)) ++ String.singleton (hexDigit (b.toNat % 16))))

def encodeURIComponentJS (s : String) : String :=
  String.join (s.data.map (fun c =>
    if isUriUnreserved c then String.singleton c else percentEncodeChar c))

/-- JavaScript `s.replace(pat, repl)` with a string pattern: first occurrence
only. -/
def replaceFirst (s pat repl : String) : String :=
  match s.splitOn pat with
  | [] => s
  | [x] => x
  | x :: rest => x ++ repl ++ String.intercalate pat rest

structure UcpResponse where
  status : Nat
  headers : List (String × String)
  body : Json
deriving Repr

/-- The minimal document served when the agent is disabled (or no profile
exists). -/
def ucpDisabledDoc : Json :=
  .obj [("ucp_version", .str "1.0"),
        ("status", .str "disabled"),
        ("message", .str "AI Agent is currently disabled for this store.")]

def ucpDisabledResp : UcpResponse :=
  { status := 200,
    headers := [("Content-Type", "application/json"),
                ("Cache-Control", "public, max-age=300")],
    body := ucpDisabledDoc }

/-- The UCP-shaped tool list of the discovery document. -/
def ucpToolsJson : Json := .arr [
  .obj [("name", .str "search_products"),
        ("description", .str "Search for products in the store catalog"),
        ("parameters", .obj [
          ("type", .str "object"),
          ("properties", .obj [
            ("query", .obj [("type", .str "string"),
                            ("description", .str "Search query (e.g., \x27red dress under $50\x27)")]),
            ("limit", .obj [("type", .str "integer"),
                            ("description", .str "Maximum number of results (default: 10)"),
                            ("default", .num 10)])]),
          ("required", .arr [.str "query"])])],
  .obj [("name", .str "get_product"),
        ("description", .str "Get detailed information about a specific product"),
        ("parameters", .obj [
          ("type", .str "object"),
          ("properties", .obj [
            ("handle", .obj [("type", .str "string"),
                             ("description", .str "Product handle/slug")])]),
          ("required", .arr [.str "handle"])])],
  .obj [("name", .str "create_checkout"),
        ("description", .str "Create an instant checkout link for products"),
        ("parameters", .obj [
          ("type", .str "object"),
          ("properties", .obj [
            ("variant_ids", .obj [("type", .str "array"),
                                  ("items", .obj [("type", .str "string")]),
                                  ("description", .str "Array of product variant IDs to add to cart")]),
            ("quantities", .obj [("type", .str "array"),
                                 ("items", .obj [("type", .str "integer")]),
                                 ("description", .str "Array of quantities for each variant")])]),
          ("required", .arr [.str "variant_ids"])])],
  .obj [("name", .str "get_store_info"),
        ("description", .str "Get information about the store (shipping, returns, etc.)"),
        ("parameters", .obj [
          ("type", .str "object"),
          ("properties", .obj [
            ("topic", .obj [("type", .str "string"),
                            ("enum", .arr [.str "shipping", .str "returns", .str "contact", .str "about"]),
                            ("description", .str "Topic to get information about")])])])]]

/-- The full UCP profile document for an enabled tenant. A missing
`updatedAt` leaves `last_updated` `undefined`, which JSON serialization
drops. -/
def ucpProfileDoc (appUrl shop : String) (profile : MerchantProfile) : Json :=
  let endpoint := appUrl ++ "/api/mcp/" ++ encodeURIComponentJS shop
  .obj [("ucp_version", .str "1.0"),
        ("store", .obj [("name", .str (replaceFirst shop ".myshopify.com" "")),
                        ("domain", .str shop)]),
        ("capabilities", .arr [
          .obj [("type", .str "discovery"),
                ("description", .str "Search and browse products"),
                ("mcp_endpoint", .str endpoint)],
          .obj [("type", .str "checkout"),
                ("description", .str "Create instant checkout links"),
                ("mcp_endpoint", .str endpoint)],
          .obj [("type", .str "inquiry"),
                ("description", .str "Answer questions about products, shipping, and returns"),
                ("mcp_endpoint", .str endpoint)]]),
        ("tools", ucpToolsJson),
        ("metadata", .obj ([("brand_voice", .str profile.brandVoice),
                            ("free_shipping_threshold", .num profile.minFreeShipping)]
          ++ (match profile.updatedAt with
              | none => []
              | some ts => [("last_updated", .str ts)])))]

/-- The UCP discovery `loader`. Inputs from the environment: the app URL, the
shop of the authenticated app-proxy session (`none` = authentication yielded
no session, answered 401), and the `merchantProfile.findUnique` result. A
missing profile and a disabled one both take the `!profile?.isEnabled`
branch. -/
def ucpLoader (appUrl : String) (sessionShop : Option String)
    (profile : Option MerchantProfile) : UcpResponse :=
  match sessionShop with
  | none =>
    { status := 401, headers := [("Content-Type", "application/json")],
      body := .obj [("error", .str "Unauthorized")] }
  | some shop =>
    match profile with
    | none => ucpDisabledResp
    | some p =>
      if p.isEnabled then
        { status := 200,
          headers := [("Content-Type", "application/json"),
                      ("Cache-Control", "public, max-age=300"),
                      ("Access-Control-Allow-Origin", "*")],
          body := ucpProfileDoc appUrl shop p }
      else ucpDisabledResp

/-! ## Concrete fixtures used by the closed witnesses and counterexamples -/

def profile0 : MerchantProfile :=
  { id := "prof-1", isEnabled := true, brandVoice := "friendly",
    returnPolicy := none, shippingInfo := none, minFreeShipping := 0,
    updatedAt := none }

def profileOff : MerchantProfile := { profile0 with isEnabled := false }

def session0 : Session :=
  { shop := "shop1.myshopify.com", accessToken := "tok1", profile := some profile0 }

def sessionOff : Session := { session0 with profile := some profileOff }

def db0 : DB := { nextId := 0, interactions := [], missed := [] }

def cart0 : Cart :=
  { id := "gid://shopify/Cart/1",
    checkoutUrl := "https://shop1.myshopify.com/cart/c/1",
    cost := { totalAmount := { amount := "19.99", currencyCode := "USD" } } }

/-- An upstream that finds nothing and accepts every cart. -/
def uEmpty : Upstream :=
  { search := fun _ _ _ _ => .ok [],
    byHandle := fun _ _ _ => .ok none,
    cartCreate := fun _ _ _ => .ok { cart := some cart0, userErrors := [] } }

/-- An upstream where every fetch comes back 500. -/
def uDown : Upstream :=
  { search := fun _ _ _ _ => .httpFail 500 "Internal Server Error",
    byHandle := fun _ _ _ => .httpFail 500 "Internal Server Error",
    cartCreate := fun _ _ _ => .httpFail 500 "Internal Server Error" }

def searchBody (idJ : Json) (q : String) (lim : Json) : Json :=
  .obj [("jsonrpc", .str "2.0"), ("method", .str "tools/call"), ("id", idJ),
        ("params", .obj [("name", .str "search_products"),
                         ("arguments", .obj [("query", .str q), ("limit", lim)])])]

/-- The `error.code` member of a response body. -/
def errorCode (resp : Json) : Option Json :=
  (jget resp "error").bind (fun e => jget e "code")

/-- A request whose method is none of the five the dispatcher knows. -/
def bogusBody : Json :=
  .obj [("jsonrpc", .str "2.0"), ("method", .str "bogus/x"), ("id", .num 2)]

/-- A `tools/call` naming a nonexistent tool, with a perfectly recoverable
request id. -/
def unknownToolBody : Json :=
  .obj [("jsonrpc", .str "2.0"), ("method", .str "tools/call"), ("id", .num 7),
        ("params", .obj [("name", .str "nope")])]

def toolsListBody (idJ : Json) : Json :=
  .obj [("jsonrpc", .str "2.0"), ("method", .str "tools/list"), ("id", idJ)]

def session1 : Session :=
  { shop := "other.myshopify.com", accessToken := "tok2",
    profile := some { profile0 with id := "prof-2", brandVoice := "formal" } }

def zeroQtyArgs : Json :=
  .obj [("variant_ids", .arr [.str "gid://shopify/ProductVariant/1"]),
        ("quantities", .arr [.num 0])]

def checkoutArgs : Json :=
  .obj [("variant_ids", .arr [.str "gid://shopify/ProductVariant/1"])]

/-- The freshly created counter row. -/
def newMissedRow (shop t : String) : MissedOpportunity :=
  { shop := shop, searchTerm := t, count := 1 }

/-- The envelope of the spec scenario, exactly as the spec writes it — no
`data` member in the content block. -/
def specScenarioEnvelope : Json :=
  .obj [("jsonrpc", .str "2.0"), ("id", .num 1),
        ("result", .obj [("content", .arr [.obj [
          ("type", .str "text"),
          ("text", .str "No products found for \"red dress\". Try a different search term.")]])])]

/-! ## C2: disabled tenants never receive a `result` -/

/-- C2: for every tenant whose MerchantProfile has the enabled flag off, every
request with a parseable body — in particular every `tools/call` — is answered
with a JSON-RPC error envelope carrying the AgentDisabled message
(`AI Agent is disabled for this store`, folded into code -32603 by the catch),
and never with a response containing a `result` key; no upstream call and no
database write happens. -/
theorem disabled_tenant_never_result (u : Upstream) (db : DB) (sid : String)
    (body : Json) (session : Session) (p : MerchantProfile)
    (hp : session.profile = some p) (hoff : p.isEnabled = false) :
    action u db (some sid) (.ok body) (some session) =
      ({ status := 200, body := catchEnvelope .agentDisabled }, db, []) ∧
    jget (action u db (some sid) (.ok body) (some session)).1.body "result" = none ∧
    jget (action u db (some sid) (.ok body) (some session)).1.body "error" =
      some (rpcErrorObj (-32603) "AI Agent is disabled for this store") := by
  have hs : getMerchantSession (some session) = .error .agentDisabled := by
    simp [getMerchantSession, hp, hoff]
  have h1 : action u db (some sid) (.ok body) (some session) =
      ({ status := 200, body := catchEnvelope .agentDisabled }, db, []) := by
    simp [action, hs]
  refine ⟨h1, ?_, ?_⟩ <;> rw [h1] <;> rfl

/-- Closed witness for `disabled_tenant_never_result`: a concrete
`tools/call` against a disabled tenant. -/
theorem disabled_tenant_never_result_witness :
    action uEmpty db0 (some "shop1.myshopify.com")
        (.ok (searchBody (.num 1) "red dress" (.num 5))) (some sessionOff) =
      ({ status := 200, body := catchEnvelope .agentDisabled }, db0, []) :=
  (disabled_tenant_never_result uEmpty db0 "shop1.myshopify.com"
    (searchBody (.num 1) "red dress" (.num 5)) sessionOff profileOff rfl rfl).1

/-! ## C10: UCP discovery — missing profile is indistinguishable from disabled -/

/-- C10: on the discovery surface an authenticated tenant with no
MerchantProfile row is answered exactly like one whose profile exists with the
enabled flag off: the same minimal `status: "disabled"` document, HTTP 200,
with a `public, max-age=300` Cache-Control header. -/
theorem ucp_missing_profile_eq_disabled (appUrl shop : String) (p : MerchantProfile)
    (hoff : p.isEnabled = false) :
    ucpLoader appUrl (some shop) (some p) = ucpLoader appUrl (some shop) none ∧
    ucpLoader appUrl (some shop) none = ucpDisabledResp ∧
    ucpDisabledResp.status = 200 ∧
    ucpDisabledResp.headers =
      [("Content-Type", "application/json"), ("Cache-Control", "public, max-age=300")] ∧
    ucpDisabledResp.body =
      .obj [("ucp_version", .str "1.0"), ("status", .str "disabled"),
            ("message", .str "AI Agent is currently disabled for this store.")] := by
  refine ⟨?_, rfl, rfl, rfl, rfl⟩
  simp [ucpLoader, hoff]

/-- Closed witness for `ucp_missing_profile_eq_disabled` at a concrete
disabled profile. -/
theorem ucp_missing_profile_eq_disabled_witness :
    ucpLoader "https://gateway.example" (some "shop1.myshopify.com") (some profileOff) =
      ucpLoader "https://gateway.example" (some "shop1.myshopify.com") none :=
  (ucp_missing_profile_eq_disabled "https://gateway.example" "shop1.myshopify.com"
    profileOff rfl).1

/-! ## C5: unknown methods -/


theorem jStrEqOpt_eq_true {v : Option Json} {s : String} (h : jStrEqOpt v s = true) :
    v = some (.str s) := by
  match v with
  | none => simp [jStrEqOpt] at h
  | some .null | some (.bool _) | some (.num _) | some (.arr _) | some (.obj _) =>
    simp [jStrEqOpt] at h
  | some (.str t) =>
    simp [jStrEqOpt] at h
    rw [h]


/-- C5 counterexample: an unknown method sent for a disabled tenant is NOT
answered with -32601 — authentication runs before method routing, so the
response is the -32603 AgentDisabled envelope. -/
theorem unknown_method_not_32601_counterexample :
    (∀ s, jget bogusBody "method" = some (.str s) →
      s ∉ (["initialize", "tools/list", "tools/call",
            "resources/list", "resources/read"] : List String)) ∧
    errorCode (action uEmpty db0 (some "shop1.myshopify.com")
        (.ok bogusBody) (some sessionOff)).1.body = some (.num (-32603)) ∧
    some (Json.num (-32603)) ≠ some (Json.num (-32601)) := by
  refine ⟨?_, rfl, by simp⟩
  intro s hs
  have hbm : jget bogusBody "method" = some (.str "bogus/x") := rfl
  rw [hbm] at hs
  simp only [Option.some.injEq, Json.str.injEq] at hs
  subst hs
  decide

/-- C5 (amended): for an enabled tenant and a parseable non-null body, a
`method` that is none of initialize, tools/list, tools/call, resources/list,
resources/read is answered with the -32601 MethodNotFound envelope, whatever
the rest of the payload looks like; for unparseable bodies or unknown/disabled
tenants the -32603 parse/auth error takes precedence instead. -/
theorem unknown_method_32601 (u : Upstream) (db : DB) (sid : String) (body : Json)
    (session : Session) (p : MerchantProfile)
    (hp : session.profile = some p) (hon : p.isEnabled = true)
    (hb : jIsNull body = false)
    (hm : ∀ s, jget body "method" = some (.str s) →
      s ∉ (["initialize", "tools/list", "tools/call",
            "resources/list", "resources/read"] : List String)) :
    action u db (some sid) (.ok body) (some session) =
      ({ status := 200,
         body := envelopeErr (jget body "id") (-32601)
           ("Method not found: " ++ jsDisplayOpt (jget body "method")) }, db, []) := by
  have hs : getMerchantSession (some session) = .ok session := by
    simp [getMerchantSession, hp, hon]
  have mk : ∀ s, s ∈ (["initialize", "tools/list", "tools/call",
      "resources/list", "resources/read"] : List String) →
      jStrEqOpt (jget body "method") s = false := by
    intro s hsmem
    cases hEq : jStrEqOpt (jget body "method") s with
    | false => rfl
    | true => exact absurd hsmem (hm s (jStrEqOpt_eq_true hEq))
  have h1 := mk "initialize" (by decide)
  have h2 := mk "tools/list" (by decide)
  have h3 := mk "tools/call" (by decide)
  have h4 := mk "resources/list" (by decide)
  have h5 := mk "resources/read" (by decide)
  simp [action, hs, dispatchInner, hb, h1, h2, h3, h4, h5]

/-- Closed witness for `unknown_method_32601`: the concrete unknown method
against an enabled tenant does get -32601. -/
theorem unknown_method_32601_witness :
    action uEmpty db0 (some "shop1.myshopify.com") (.ok bogusBody) (some session0) =
      ({ status := 200,
         body := envelopeErr (jget bogusBody "id") (-32601)
           ("Method not found: " ++ jsDisplayOpt (jget bogusBody "method")) }, db0, []) :=
  unknown_method_32601 uEmpty db0 "shop1.myshopify.com" bogusBody session0 profile0
    rfl rfl rfl
    (by intro s hs
        have hbm : jget bogusBody "method" = some (.str "bogus/x") := rfl
        rw [hbm] at hs
        simp only [Option.some.injEq, Json.str.injEq] at hs
        subst hs
        decide)

/-! ## C3: the catch boundary -/


/-- C3 counterexample: the claim allows `id: null` only when the request id
could not be recovered; here the id (7) is plainly recoverable from the body,
yet the -32603 envelope rendered by the catch carries `id: null`. -/
theorem catch_id_null_counterexample :
    jget unknownToolBody "id" = some (.num 7) ∧
    jget (action uEmpty db0 (some "shop1.myshopify.com")
        (.ok unknownToolBody) (some session0)).1.body "id" = some .null ∧
    errorCode (action uEmpty db0 (some "shop1.myshopify.com")
        (.ok unknownToolBody) (some session0)).1.body = some (.num (-32603)) :=
  ⟨rfl, rfl, rfl⟩

/-- C3 (amended): every error thrown inside the handler path — body parsing,
authentication, dispatch routing or a tool handler — is caught at the
outermost dispatch boundary and rendered as a -32603 envelope carrying the
thrown error's message, with `id: null` unconditionally (even when the request
id was recovered); any other outcome is a normal result envelope, and the HTTP
status is always 200, so no exception escapes as an unhandled fault. -/
theorem dispatch_errors_rendered_32603 (u : Upstream) (db : DB) (sid : String)
    (bodyParse : Except String Json) (lookup : Option Session) :
    (∀ msg, bodyParse = .error msg →
      action u db (some sid) bodyParse lookup =
        ({ status := 200, body := catchEnvelope (.bodyParseFailure msg) }, db, [])) ∧
    (∀ body e, bodyParse = .ok body → getMerchantSession lookup = .error e →
      action u db (some sid) bodyParse lookup =
        ({ status := 200, body := catchEnvelope e }, db, [])) ∧
    (∀ body session e db1 calls, bodyParse = .ok body →
      getMerchantSession lookup = .ok session →
      dispatchInner u db sid body session = (.error e, db1, calls) →
      action u db (some sid) bodyParse lookup =
        ({ status := 200, body := catchEnvelope e }, db1, calls)) ∧
    (∀ e, jget (catchEnvelope e) "id" = some .null ∧
      errorCode (catchEnvelope e) = some (.num (-32603)) ∧
      jget (catchEnvelope e) "result" = none ∧
      jget (catchEnvelope e) "error" = some (rpcErrorObj (-32603) e.message)) ∧
    (action u db (some sid) bodyParse lookup).1.status = 200 := by
  refine ⟨?_, ?_, ?_, ?_, ?_⟩
  · intro msg hmsg
    subst hmsg
    rfl
  · intro body e hbody hsess
    subst hbody
    simp [action, hsess]
  · intro body session e db1 calls hbody hsess hdisp
    subst hbody
    simp [action, hsess, hdisp]
  · intro e
    exact ⟨rfl, rfl, rfl, rfl⟩
  · cases bodyParse with
    | error msg => rfl
    | ok body =>
      cases hsess : getMerchantSession lookup with
      | error e => simp [action, hsess]
      | ok session =>
        rcases hdisp : dispatchInner u db sid body session with ⟨r, db1, calls⟩
        cases r with
        | ok j => simp [action, hsess, hdisp]
        | error e => simp [action, hsess, hdisp]

/-- Closed witness for `dispatch_errors_rendered_32603`: a handler throw
(unknown tool) rendered by the catch. -/
theorem dispatch_errors_rendered_32603_witness :
    action uEmpty db0 (some "shop1.myshopify.com") (.ok unknownToolBody) (some session0) =
      ({ status := 200,
         body := catchEnvelope (.unknownTool (some (.str "nope"))) }, db0, []) :=
  (dispatch_errors_rendered_32603 uEmpty db0 "shop1.myshopify.com"
      (.ok unknownToolBody) (some session0)).2.2.1
    unknownToolBody session0 (.unknownTool (some (.str "nope"))) db0 [] rfl rfl rfl

/-! ## C8: tools/list is deterministic -/


/-- C8: for enabled tenants, a `tools/list` request is answered with the fixed
registry envelope — the same value (hence the same serialized bytes) whatever
the tenant, database state, or upstream behaviour, as long as the request ids
agree; and the registry is exactly the four descriptors in order. -/
theorem tools_list_deterministic (u1 u2 : Upstream) (db1 db2 : DB) (sid1 sid2 : String)
    (b1 b2 : Json) (s1 s2 : Session) (p1 p2 : MerchantProfile)
    (hp1 : s1.profile = some p1) (hon1 : p1.isEnabled = true)
    (hp2 : s2.profile = some p2) (hon2 : p2.isEnabled = true)
    (hb1 : jIsNull b1 = false) (hb2 : jIsNull b2 = false)
    (hm1 : jget b1 "method" = some (.str "tools/list"))
    (hm2 : jget b2 "method" = some (.str "tools/list"))
    (hid : jget b1 "id" = jget b2 "id") :
    action u1 db1 (some sid1) (.ok b1) (some s1) =
      ({ status := 200, body := envelopeOk (jget b1 "id") (.obj [("tools", TOOLS)]) }, db1, []) ∧
    (action u1 db1 (some sid1) (.ok b1) (some s1)).1 =
      (action u2 db2 (some sid2) (.ok b2) (some s2)).1 ∧
    stringifyJson (action u1 db1 (some sid1) (.ok b1) (some s1)).1.body =
      stringifyJson (action u2 db2 (some sid2) (.ok b2) (some s2)).1.body ∧
    (match TOOLS with
     | .arr ts => ts.map (fun t => jget t "name")
     | _ => []) =
      [some (.str "search_products"), some (.str "get_product"),
       some (.str "create_checkout"), some (.str "get_store_info")] := by
  have key : ∀ (u : Upstream) (db : DB) (sid : String) (b : Json) (s : Session)
      (p : MerchantProfile), s.profile = some p → p.isEnabled = true →
      jIsNull b = false → jget b "method" = some (.str "tools/list") →
      action u db (some sid) (.ok b) (some s) =
        ({ status := 200, body := envelopeOk (jget b "id") (.obj [("tools", TOOLS)]) }, db, []) := by
    intro u db sid b s p hp hon hb hm
    have hs : getMerchantSession (some s) = .ok s := by
      simp [getMerchantSession, hp, hon]
    have c1 : jStrEqOpt (jget b "method") "initialize" = false := by rw [hm]; rfl
    have c2 : jStrEqOpt (jget b "method") "tools/list" = true := by rw [hm]; rfl
    simp [action, hs, dispatchInner, hb, c1, c2]
  have e1 := key u1 db1 sid1 b1 s1 p1 hp1 hon1 hb1 hm1
  have e2 := key u2 db2 sid2 b2 s2 p2 hp2 hon2 hb2 hm2
  have hresp : (action u1 db1 (some sid1) (.ok b1) (some s1)).1 =
      (action u2 db2 (some sid2) (.ok b2) (some s2)).1 := by
    rw [e1, e2, hid]
  exact ⟨e1, hresp, congrArg (fun r => stringifyJson r.body) hresp, rfl⟩

/-- Closed witness for `tools_list_deterministic`: the same envelope comes
back for two different tenants, database states and upstreams. -/
theorem tools_list_deterministic_witness :
    (action uEmpty db0 (some "shop1.myshopify.com")
        (.ok (toolsListBody (.num 9))) (some session0)).1 =
    (action uDown { db0 with nextId := 5 } (some "other.myshopify.com")
        (.ok (toolsListBody (.num 9))) (some session1)).1 :=
  (tools_list_deterministic uEmpty uDown db0 { db0 with nextId := 5 }
    "shop1.myshopify.com" "other.myshopify.com"
    (toolsListBody (.num 9)) (toolsListBody (.num 9)) session0 session1
    profile0 { profile0 with id := "prof-2", brandVoice := "formal" }
    rfl rfl rfl rfl rfl rfl rfl rfl rfl).2.1

/-! ## C9: a falsy `limit` is replaced by 10 -/

/-- The upstream request a `search_products` tool call issues, whatever the
outcome: one search carrying the `|| 10`-defaulted limit. -/
theorem searchTool_trace (u : Upstream) (db : DB) (args : Json) (session : Session)
    (profile : MerchantProfile) :
    (searchTool u db args session profile).2.2 =
      [.search session.shop session.accessToken (jget args "query")
        (jsOr (jget args "limit") (.num 10))] := by
  simp only [searchTool]
  rcases hsp : searchProducts u session.shop session.accessToken (jget args "query")
      (some (jsOr (jget args "limit") (.num 10))) with ⟨res, calls⟩
  have hc : calls = [.search session.shop session.accessToken (jget args "query")
      (jsOr (jget args "limit") (.num 10))] := by
    have h2 := congrArg Prod.snd hsp
    simp only [searchProducts] at h2
    exact h2.symm
  cases res with
  | error e => simpa using hc
  | ok products =>
    cases products with
    | nil =>
      cases htm : trackMissedOpportunity db session.shop (jget args "query") with
      | error e => simpa [htm] using hc
      | ok dbA =>
        cases hlog : logInteraction dbA profile.id "search_products" (jget args "query")
            none none none none with
        | error e => simpa [htm, hlog] using hc
        | ok pr =>
          rcases pr with ⟨iid, dbB⟩
          simpa [htm, hlog] using hc
    | cons p ps =>
      cases hlog : logInteraction db profile.id "search_products" (jget args "query")
          none none none none with
      | error e => simpa [hlog] using hc
      | ok pr =>
        rcases pr with ⟨iid, dbB⟩
        simpa [hlog] using hc

/-- C9: whenever the `limit` argument of a `search_products` call is falsy —
absent, `null`, or an explicit 0 — the upstream search is issued with the
default limit 10; in particular `limit: 0` does not produce a zero-result
search, it is silently replaced by 10. -/
theorem search_falsy_limit_defaults_to_10 (u : Upstream) (db : DB) (args : Json)
    (session : Session) (profile : MerchantProfile)
    (hl : jsFalsyOpt (jget args "limit") = true) :
    (searchTool u db args session profile).2.2 =
      [.search session.shop session.accessToken (jget args "query") (.num 10)] := by
  have hor : jsOr (jget args "limit") (.num 10) = .num 10 := by
    cases hof : jget args "limit" with
    | none => rfl
    | some v =>
      rw [hof] at hl
      simp only [jsFalsyOpt] at hl
      simp [jsOr, hl]
  rw [searchTool_trace, hor]

/-- Closed witness for `search_falsy_limit_defaults_to_10`: an explicit
`limit: 0` is sent upstream as 10. -/
theorem search_falsy_limit_defaults_to_10_witness :
    (searchTool uEmpty db0 (.obj [("query", .str "red dress"), ("limit", .num 0)])
        session0 profile0).2.2 =
      [.search "shop1.myshopify.com" "tok1" (some (.str "red dress")) (.num 10)] :=
  search_falsy_limit_defaults_to_10 uEmpty db0
    (.obj [("query", .str "red dress"), ("limit", .num 0)]) session0 profile0 rfl

/-! ## C6: upstream failures propagate, no retry -/

/-- C6: every client call fails with the upstream error — `Shopify API error`
on a non-ok HTTP status, `GraphQL errors` on a populated top-level error list
— and `createCheckoutLink` additionally fails with `Cart creation failed` when
the mutation reports user-facing validation errors, carrying the original
error objects (whose rendered message embeds their serialization verbatim)
instead of swallowing them; and each invocation issues at most one upstream
request — exactly one whenever a request is issued at all — so no retry ever
happens. -/
theorem upstream_errors_propagate (u : Upstream) (shop tok : String)
    (q lim h vids : Option Json) (qs : Json) (iid : String)
    (st : Nat) (stx : String) (ge : Json) (payload : CartCreatePayload) :
    (u.search shop tok q (lim.getD (.num 10)) = .httpFail st stx →
      (searchProducts u shop tok q lim).1 = .error (.shopifyApi st stx)) ∧
    (u.search shop tok q (lim.getD (.num 10)) = .gqlErrors ge →
      (searchProducts u shop tok q lim).1 = .error (.graphqlErrors ge)) ∧
    (u.byHandle shop tok h = .httpFail st stx →
      (getProductByHandle u shop tok h).1 = .error (.shopifyApi st stx)) ∧
    (u.byHandle shop tok h = .gqlErrors ge →
      (getProductByHandle u shop tok h).1 = .error (.graphqlErrors ge)) ∧
    (∀ vlist, vids = some (.arr vlist) →
      (u.cartCreate shop tok (cartInputOf vlist qs iid) = .httpFail st stx →
        (createCheckoutLink u shop tok vids qs iid).1 = .error (.shopifyApi st stx)) ∧
      (u.cartCreate shop tok (cartInputOf vlist qs iid) = .gqlErrors ge →
        (createCheckoutLink u shop tok vids qs iid).1 = .error (.graphqlErrors ge)) ∧
      (u.cartCreate shop tok (cartInputOf vlist qs iid) = .ok payload →
        payload.userErrors ≠ [] →
        (createCheckoutLink u shop tok vids qs iid).1 =
          .error (.cartCreationFailed payload.userErrors))) ∧
    (∀ errs, AgentError.message (.cartCreationFailed errs) =
      "Cart creation failed: " ++ stringifyJson (.arr (errs.map UserError.toJson))) ∧
    (searchProducts u shop tok q lim).2.length = 1 ∧
    (getProductByHandle u shop tok h).2.length = 1 ∧
    (createCheckoutLink u shop tok vids qs iid).2.length ≤ 1 ∧
    (∀ vlist, vids = some (.arr vlist) →
      (createCheckoutLink u shop tok vids qs iid).2.length = 1) := by
  refine ⟨?_, ?_, ?_, ?_, ?_, fun errs => rfl, ?_, ?_, ?_, ?_⟩
  · intro hup
    simp [searchProducts, executeShopifyGraphQL, hup]
  · intro hup
    simp [searchProducts, executeShopifyGraphQL, hup]
  · intro hup
    simp [getProductByHandle, executeShopifyGraphQL, hup]
  · intro hup
    simp [getProductByHandle, executeShopifyGraphQL, hup]
  · intro vlist hv
    subst hv
    refine ⟨?_, ?_, ?_⟩
    · intro hup
      simp [createCheckoutLink, executeShopifyGraphQL, hup]
    · intro hup
      simp [createCheckoutLink, executeShopifyGraphQL, hup]
    · intro hup hne
      have hempty : payload.userErrors.isEmpty = false := by
        cases hh : payload.userErrors with
        | nil => exact absurd hh hne
        | cons a l => rfl
      simp [createCheckoutLink, executeShopifyGraphQL, hup, hempty]
  · simp [searchProducts]
  · simp [getProductByHandle]
  · cases vids with
    | none => simp [createCheckoutLink]
    | some v =>
      cases v with
      | arr vlist => simp [createCheckoutLink]
      | null => simp [createCheckoutLink]
      | bool b => simp [createCheckoutLink]
      | num n => simp [createCheckoutLink]
      | str s => simp [createCheckoutLink]
      | obj kvs => simp [createCheckoutLink]
  · intro vlist hv
    subst hv
    simp [createCheckoutLink]

/-- Closed witness for `upstream_errors_propagate`: a 500 from the platform
surfaces as the `Shopify API error` failure of `searchProducts`. -/
theorem upstream_errors_propagate_witness :
    (searchProducts uDown "shop1.myshopify.com" "tok1"
        (some (.str "red dress")) (some (.num 10))).1 =
      .error (.shopifyApi 500 "Internal Server Error") :=
  (upstream_errors_propagate uDown "shop1.myshopify.com" "tok1"
    (some (.str "red dress")) (some (.num 10)) none none (.arr []) "i"
    500 "Internal Server Error" .null
    { cart := none, userErrors := [] }).1 rfl

/-! ## C7: line items align positionally; `|| 1` also hits an explicit 0 -/


/-- C7 counterexample: the quantities array supplies the entry 0 at index 0,
yet the single line item sent upstream carries quantity 1 — `quantities[i] || 1`
replaces an explicit 0, so the claim "quantity is quantities[i] whenever the
array supplies an entry at index i" fails. -/
theorem checkout_zero_quantity_counterexample :
    jindex (.arr [.num 0]) 0 = some (.num 0) ∧
    (createCheckoutTool uEmpty db0 zeroQtyArgs session0 profile0).2.2 =
      [.cartCreate "shop1.myshopify.com" "tok1"
        (cartInputOf [.str "gid://shopify/ProductVariant/1"] (.arr [.num 0]) (mintId 0))] ∧
    (cartInputOf [.str "gid://shopify/ProductVariant/1"] (.arr [.num 0]) (mintId 0)).lines =
      [{ merchandiseId := .str "gid://shopify/ProductVariant/1", quantity := .num 1 }] ∧
    Json.num 1 ≠ Json.num 0 := by
  refine ⟨rfl, rfl, rfl, by simp⟩

/-- C7 (amended): line item `i` of the cart input uses `variant_ids[i]`; its
quantity is `quantities[i]` whenever that entry exists and is truthy, and
defaults to 1 when the entry is missing or an explicit (falsy) 0; when the
whole quantities argument is absent the handler substitutes an all-ones array
of the variant ids' length. -/
theorem checkout_lineitems_positional (vlist : List Json) (qs : Json) (iid : String)
    (i : Nat) (args : Json) :
    (cartInputOf vlist qs iid).lines[i]? =
      (vlist[i]?).map (fun v =>
        { merchandiseId := v, quantity := jsOr (jindex qs i) (.num 1) }) ∧
    (cartInputOf vlist qs iid).lines.length = vlist.length ∧
    (∀ qv, jindex qs i = some qv → jsFalsy qv = false →
      jsOr (jindex qs i) (.num 1) = qv) ∧
    (jindex qs i = none → jsOr (jindex qs i) (.num 1) = .num 1) ∧
    (jindex qs i = some (.num 0) → jsOr (jindex qs i) (.num 1) = .num 1) ∧
    (∀ xs, jget args "quantities" = none → jget args "variant_ids" = some (.arr xs) →
      resolveQuantities args = .ok (.arr (xs.map (fun _ => Json.num 1)))) := by
  refine ⟨?_, ?_, ?_, ?_, ?_, ?_⟩
  · cases hv : vlist[i]? <;>
      simp [cartInputOf, lineItemsOf, List.getElem?_map, List.getElem?_enum, hv]
  · simp [cartInputOf, lineItemsOf]
  · intro qv hq hfal
    simp [jsOr, hq, hfal]
  · intro hq
    simp [jsOr, hq]
  · intro hq
    simp [jsOr, hq, jsFalsy]
  · intro xs h1 h2
    simp [resolveQuantities, h1, fallbackOnes, h2]

/-- Closed witness for `checkout_lineitems_positional`: with two variants and
a single supplied quantity, line 1 falls back to quantity 1. -/
theorem checkout_lineitems_positional_witness :
    (cartInputOf [.str "v1", .str "v2"] (.arr [.num 3]) "int-1").lines[1]? =
      some { merchandiseId := .str "v2", quantity := .num 1 } := by
  have h := (checkout_lineitems_positional [.str "v1", .str "v2"] (.arr [.num 3])
    "int-1" 1 (.obj [])).1
  simpa using h

/-! ## C1: checkout attribution round-trip -/

theorem mapNoopOf {α : Type} (l : List α) (f : α → α) (h : ∀ a ∈ l, f a = a) :
    l.map f = l := by
  induction l with
  | nil => rfl
  | cons x xs ih =>
    simp only [List.map_cons]
    rw [h x (by simp), ih (fun a ha => h a (by simp [ha]))]

/-- A successful `createCheckoutLink` was necessarily given an array of
variant ids and issued exactly the one `cartCreate` mutation whose input was
built by `cartInputOf`. -/
theorem createCheckoutLink_ok {u : Upstream} {shop tok : String} {vids : Option Json}
    {qs : Json} {iid : String} {r : CheckoutResult} {calls : List UpstreamCall}
    (hok : createCheckoutLink u shop tok vids qs iid = (.ok r, calls)) :
    ∃ vlist, vids = some (.arr vlist) ∧
      calls = [.cartCreate shop tok (cartInputOf vlist qs iid)] := by
  match vids with
  | some (.arr vlist) =>
    refine ⟨vlist, rfl, ?_⟩
    have h2 := congrArg Prod.snd hok
    simpa [createCheckoutLink] using h2.symm
  | none => simp [createCheckoutLink] at hok
  | some .null => simp [createCheckoutLink] at hok
  | some (.bool b) => simp [createCheckoutLink] at hok
  | some (.num n) => simp [createCheckoutLink] at hok
  | some (.str s) => simp [createCheckoutLink] at hok
  | some (.obj kvs) => simp [createCheckoutLink] at hok

/-- C1: every `create_checkout` tool call that succeeds issued exactly one
cart-create mutation whose input carries the attribution pair
`(_source, universal_agent_gateway)` and `(_interaction_id, id)`, where `id`
is the id of the AgentInteraction row minted by the `logInteraction` call the
handler performed immediately before creating the cart — the very row the
call appended (later filled with the checkout columns by the two-phase
update). The freshness hypothesis says the database does not already contain
the id about to be minted, which every reachable state satisfies. -/
theorem create_checkout_attribution (u : Upstream) (db : DB) (args : Json)
    (session : Session) (profile : MerchantProfile)
    (hsucc : ∃ c, (createCheckoutTool u db args session profile).1 = .ok c)
    (hfresh : ∀ r ∈ db.interactions, r.id ≠ mintId db.nextId) :
    ∃ input newRec,
      (createCheckoutTool u db args session profile).2.2 =
        [.cartCreate session.shop session.accessToken input] ∧
      input.attributes =
        [{ key := "_source", value := "universal_agent_gateway" },
         { key := "_interaction_id", value := newRec.id }] ∧
      (createCheckoutTool u db args session profile).2.1.interactions =
        db.interactions ++ [newRec] ∧
      newRec.id = mintId db.nextId ∧
      newRec.userIntent = "create_checkout" ∧
      newRec.merchantId = profile.id ∧
      newRec.checkoutId.isSome = true := by
  obtain ⟨c, hc⟩ := hsucc
  cases hq : resolveQuantities args with
  | error e =>
    simp only [createCheckoutTool, hq] at hc
    simp at hc
  | ok quantities =>
    simp only [createCheckoutTool, hq] at hc ⊢
    have hlog : logInteraction db profile.id "create_checkout"
        (some (.str (stringifyVQ (jget args "variant_ids") quantities)))
        none none none none =
        .ok (mintId db.nextId,
          { nextId := db.nextId + 1,
            interactions := db.interactions ++
              [{ id := mintId db.nextId, merchantId := profile.id,
                 userIntent := "create_checkout",
                 inputQuery := some (stringifyVQ (jget args "variant_ids") quantities),
                 checkoutId := none, checkoutUrl := none,
                 potentialValue := none, userAgent := none }],
            missed := db.missed }) := rfl
    simp only [hlog] at hc ⊢
    rcases hccl : createCheckoutLink u session.shop session.accessToken
        (jget args "variant_ids") quantities (mintId db.nextId) with ⟨res, calls⟩
    cases res with
    | error e =>
      simp only [hccl] at hc
      simp at hc
    | ok checkout =>
      obtain ⟨vlist, hvids, hcalls⟩ := createCheckoutLink_ok hccl
      simp only [hccl] at hc ⊢
      refine ⟨cartInputOf vlist quantities (mintId db.nextId),
        { id := mintId db.nextId, merchantId := profile.id,
          userIntent := "create_checkout",
          inputQuery := some (stringifyVQ (jget args "variant_ids") quantities),
          checkoutId := some checkout.checkoutId,
          checkoutUrl := some checkout.checkoutUrl,
          potentialValue := some checkout.totalPrice, userAgent := none },
        ?_, rfl, ?_, rfl, rfl, rfl, rfl⟩
      · exact hcalls
      · simp only [updateInteraction, List.map_append]
        have hid : ∀ r ∈ db.interactions,
            (if r.id == mintId db.nextId then
              { r with checkoutId := some checkout.checkoutId,
                       checkoutUrl := some checkout.checkoutUrl,
                       potentialValue := some checkout.totalPrice } else r) = r := by
          intro r hr
          have hne := hfresh r hr
          simp [hne]
        rw [mapNoopOf _ _ hid]
        simp


/-- Closed witness for `create_checkout_attribution` at a concrete successful
checkout. -/
theorem create_checkout_attribution_witness :
    ∃ input newRec,
      (createCheckoutTool uEmpty db0 checkoutArgs session0 profile0).2.2 =
        [.cartCreate "shop1.myshopify.com" "tok1" input] ∧
      input.attributes =
        [{ key := "_source", value := "universal_agent_gateway" },
         { key := "_interaction_id", value := newRec.id }] ∧
      (createCheckoutTool uEmpty db0 checkoutArgs session0 profile0).2.1.interactions =
        db0.interactions ++ [newRec] ∧
      newRec.id = mintId db0.nextId ∧
      newRec.userIntent = "create_checkout" ∧
      newRec.merchantId = profile0.id ∧
      newRec.checkoutId.isSome = true :=
  create_checkout_attribution uEmpty db0 checkoutArgs session0 profile0
    ⟨_, rfl⟩ (by intro r hr; simp [db0] at hr)

/-! ## C4: zero-result searches -/


theorem missedCountL_bump (shop t : String) (l : List MissedOpportunity)
    (h : l.any (fun m => m.shop == shop && m.searchTerm == t) = true) :
    missedCountL (l.map (fun m => if m.shop == shop && m.searchTerm == t then
      { m with count := m.count + 1 } else m)) shop t = missedCountL l shop t + 1 := by
  induction l with
  | nil => simp at h
  | cons x xs ih =>
    by_cases hx : (x.shop == shop && x.searchTerm == t) = true
    · simp [missedCountL, hx]
    · have hx' : (x.shop == shop && x.searchTerm == t) = false := by
        cases hv : (x.shop == shop && x.searchTerm == t) with
        | true => exact absurd hv hx
        | false => rfl
      have h' : xs.any (fun m => m.shop == shop && m.searchTerm == t) = true := by
        simpa [List.any_cons, hx'] using h
      simpa [missedCountL, hx'] using ih h' 

theorem missedCountL_bump_other (shop t shop2 t2 : String)
    (hne : ¬(shop2 = shop ∧ t2 = t)) (l : List MissedOpportunity) :
    missedCountL (l.map (fun m => if m.shop == shop && m.searchTerm == t then
      { m with count := m.count + 1 } else m)) shop2 t2 = missedCountL l shop2 t2 := by
  induction l with
  | nil => rfl
  | cons x xs ih =>
    by_cases hk : (x.shop == shop && x.searchTerm == t) = true
    · have hk' : x.shop = shop ∧ x.searchTerm = t := by simpa using hk
      have hk2 : (x.shop == shop2 && x.searchTerm == t2) = false := by
        cases hv : (x.shop == shop2 && x.searchTerm == t2) with
        | false => rfl
        | true =>
          have hc : x.shop = shop2 ∧ x.searchTerm = t2 := by simpa using hv
          exact absurd ⟨hc.1.symm.trans hk'.1, hc.2.symm.trans hk'.2⟩ hne
      simpa [missedCountL, hk, hk2] using ih
    · have hk' : (x.shop == shop && x.searchTerm == t) = false := by
        cases hv : (x.shop == shop && x.searchTerm == t) with
        | true => exact absurd hv hk
        | false => rfl
      by_cases hk2 : (x.shop == shop2 && x.searchTerm == t2) = true
      · simp [missedCountL, hk', hk2]
      · simpa [missedCountL, hk', hk2] using ih

theorem missedCountL_nomatch (shop t : String) (l : List MissedOpportunity)
    (h : l.any (fun m => m.shop == shop && m.searchTerm == t) = false) :
    missedCountL l shop t = 0 := by
  induction l with
  | nil => rfl
  | cons x xs ih =>
    simp only [List.any_cons, Bool.or_eq_false_iff] at h
    simp [missedCountL, h.1, ih h.2]

theorem missedCountL_append_new (shop t : String) (l : List MissedOpportunity)
    (h : l.any (fun m => m.shop == shop && m.searchTerm == t) = false) :
    missedCountL (l ++ [newMissedRow shop t]) shop t = 1 := by
  induction l with
  | nil => simp [missedCountL, newMissedRow]
  | cons x xs ih =>
    simp only [List.any_cons, Bool.or_eq_false_iff] at h
    simp [missedCountL, h.1, ih h.2]

theorem missedCountL_append_other (shop t shop2 t2 : String)
    (hne : ¬(shop2 = shop ∧ t2 = t)) (l : List MissedOpportunity) :
    missedCountL (l ++ [newMissedRow shop t]) shop2 t2 = missedCountL l shop2 t2 := by
  have hkey : ((newMissedRow shop t).shop == shop2 &&
      (newMissedRow shop t).searchTerm == t2) = false := by
    cases hv : ((newMissedRow shop t).shop == shop2 &&
        (newMissedRow shop t).searchTerm == t2) with
    | false => rfl
    | true =>
      have hc : shop = shop2 ∧ t = t2 := by simpa [newMissedRow] using hv
      exact absurd ⟨hc.1.symm, hc.2.symm⟩ hne
  induction l with
  | nil => simp [missedCountL, hkey]
  | cons x xs ih =>
    by_cases hx : (x.shop == shop2 && x.searchTerm == t2) = true
    · simp [missedCountL, hx]
    · have hx' : (x.shop == shop2 && x.searchTerm == t2) = false := by
        cases hv : (x.shop == shop2 && x.searchTerm == t2) with
        | true => exact absurd hv hx
        | false => rfl
      simp [missedCountL, hx', ih]

/-- One upsert raises the key's count by exactly one. -/
theorem missedCount_upsert_self (db : DB) (shop t : String) :
    missedCount (upsertMissed db shop t) shop t = missedCount db shop t + 1 := by
  unfold missedCount upsertMissed
  by_cases hany : (db.missed.any (fun m => m.shop == shop && m.searchTerm == t)) = true
  · rw [if_pos hany]
    exact missedCountL_bump shop t db.missed hany
  · have hany' : (db.missed.any (fun m => m.shop == shop && m.searchTerm == t)) = false := by
      cases hv : (db.missed.any (fun m => m.shop == shop && m.searchTerm == t)) with
      | true => exact absurd hv hany
      | false => rfl
    rw [if_neg hany]
    show missedCountL (db.missed ++ [newMissedRow shop t]) shop t = _
    rw [missedCountL_append_new shop t db.missed hany',
        missedCountL_nomatch shop t db.missed hany']

/-- One upsert leaves every other key's count untouched. -/
theorem missedCount_upsert_other (db : DB) (shop t shop2 t2 : String)
    (hne : ¬(shop2 = shop ∧ t2 = t)) :
    missedCount (upsertMissed db shop t) shop2 t2 = missedCount db shop2 t2 := by
  unfold missedCount upsertMissed
  by_cases hany : (db.missed.any (fun m => m.shop == shop && m.searchTerm == t)) = true
  · rw [if_pos hany]
    exact missedCountL_bump_other shop t shop2 t2 hne db.missed
  · rw [if_neg hany]
    show missedCountL (db.missed ++ [newMissedRow shop t]) shop2 t2 = _
    rw [missedCountL_append_other shop t shop2 t2 hne db.missed]


set_option maxRecDepth 4096 in
/-- C4 counterexample: for the concrete scenario (query "red dress", limit 5,
id 1, zero matches) the response is NOT exactly the spec's envelope — the
content block additionally carries `data: []`. -/
theorem search_zero_results_counterexample :
    (action uEmpty db0 (some "shop1.myshopify.com")
        (.ok (searchBody (.num 1) "red dress" (.num 5))) (some session0)).1.body =
      .obj [("jsonrpc", .str "2.0"), ("id", .num 1),
            ("result", .obj [("content", .arr [.obj [
              ("type", .str "text"),
              ("text", .str "No products found for \"red dress\". Try a different search term."),
              ("data", .arr [])]])])] ∧
    (action uEmpty db0 (some "shop1.myshopify.com")
        (.ok (searchBody (.num 1) "red dress" (.num 5))) (some session0)).1.body ≠
      specScenarioEnvelope := by
  have h1 : (action uEmpty db0 (some "shop1.myshopify.com")
      (.ok (searchBody (.num 1) "red dress" (.num 5))) (some session0)).1.body =
      .obj [("jsonrpc", .str "2.0"), ("id", .num 1),
            ("result", .obj [("content", .arr [.obj [
              ("type", .str "text"),
              ("text", .str "No products found for \"red dress\". Try a different search term."),
              ("data", .arr [])]])])] := rfl
  refine ⟨h1, ?_⟩
  rw [h1]
  intro hcon
  exact absurd (congrArg stringifyJson hcon) (by decide)

/-- C4 (amended): a `tools/call` of search_products (query `q`, limit 5)
against an enabled tenant whose upstream yields zero matches returns the spec
scenario's envelope with the content block additionally carrying `data: []`;
the call performs exactly one MissedOpportunity upsert for (shop, q) — its
count rises by exactly one and every other (shop, term) counter is untouched —
so the count climbs monotonically by one across repeated identical
zero-result searches. -/
theorem search_zero_results_envelope (u : Upstream) (db : DB) (sid : String)
    (session : Session) (p : MerchantProfile) (q : String) (idJ : Json)
    (hp : session.profile = some p) (hon : p.isEnabled = true)
    (hup : u.search session.shop session.accessToken (some (.str q)) (.num 5) = .ok []) :
    (action u db (some sid) (.ok (searchBody idJ q (.num 5))) (some session)).1 =
      { status := 200,
        body := envelopeOk (some idJ) (.obj [("content", .arr [.obj [
          ("type", .str "text"),
          ("text", .str ("No products found for \"" ++ q ++ "\". Try a different search term.")),
          ("data", .arr [])]])]) } ∧
    (action u db (some sid) (.ok (searchBody idJ q (.num 5))) (some session)).2.1.missed =
      (upsertMissed db session.shop q).missed ∧
    (action u db (some sid) (.ok (searchBody idJ q (.num 5))) (some session)).2.2 =
      [.search session.shop session.accessToken (some (.str q)) (.num 5)] ∧
    missedCount (upsertMissed db session.shop q) session.shop q =
      missedCount db session.shop q + 1 ∧
    (∀ shop2 t2, ¬(shop2 = session.shop ∧ t2 = q) →
      missedCount (upsertMissed db session.shop q) shop2 t2 =
        missedCount db shop2 t2) := by
  have hs : getMerchantSession (some session) = .ok session := by
    simp [getMerchantSession, hp, hon]
  refine ⟨?_, ?_, ?_, missedCount_upsert_self db session.shop q,
    fun shop2 t2 hne => missedCount_upsert_other db session.shop q shop2 t2 hne⟩ <;>
    simp [action, hs, dispatchInner, searchBody, handleToolCall, searchTool,
      searchProducts, executeShopifyGraphQL, hup, trackMissedOpportunity,
      logInteraction, decodeOptStr, jget, jlookup, jsOr, jsFalsy, jStrEqOpt,
      jIsNull, envelopeOk, idField, jsDisplayOpt, jsDisplay, hp]

/-- Closed witness for `search_zero_results_envelope` on a fresh database:
afterwards exactly the one ("red dress", 1) row exists. -/
theorem search_zero_results_envelope_witness :
    (action uEmpty db0 (some "shop1.myshopify.com")
        (.ok (searchBody (.num 1) "red dress" (.num 5))) (some session0)).2.1.missed =
      (upsertMissed db0 "shop1.myshopify.com" "red dress").missed :=
  (search_zero_results_envelope uEmpty db0 "shop1.myshopify.com" session0 profile0
    "red dress" (.num 1) rfl rfl rfl).2.1
